import Mathlib

/-!
Shallow embedding of the TTY face-lock core (src/testcode.py): the popup
notifier, the animation engine, the face worker loop, and the TTYSafeLock
controller state machine, together with theorems settling the frozen claims
about them.  Machine reals of the source are modelled exactly over rationals;
Python integer division and modulo (floor/Euclidean for positive divisors)
are modelled with Int division and emod.
-/

namespace FaceLock

/-- The curses key code for the left arrow key. -/
def KEY_LEFT : Nat := 260

/-- The curses key code for the right arrow key. -/
def KEY_RIGHT : Nat := 261

/-- The curses key code for backspace. -/
def KEY_BACKSPACE : Nat := 263

/-- Python int() applied to an exact rational: truncation toward zero. -/
def pyInt (q : ℚ) : ℤ := q.num.tdiv q.den

/-- PopupManager state (testcode.py lines 56-63): the current transient
message, if any, and the timestamp recorded when it was shown. -/
structure PopupState where
  message : Option String
  start_time : Option ℚ
deriving Repr, DecidableEq

/-- PopupManager.__init__: no message, no timestamp. -/
def PopupState.init : PopupState := { message := none, start_time := none }

/-- PopupManager.show (lines 61-63): unconditionally replace any current
message and timestamp it with the current time. -/
def PopupState.showMsg (_s : PopupState) (msg : String) (now : ℚ) : PopupState :=
  { message := some msg, start_time := some now }

/-- Python truthiness of the message field: None and the empty string are
falsy, any other string is truthy. -/
def pyFalsy : Option String → Bool
  | none => true
  | some m => m == ""

/-- PopupManager.render (lines 65-74): returns the text drawn this frame (if
any) together with the updated state.  A truthy message older than the fixed
1.0 time-unit window is dropped and nothing is drawn.  `show` always sets the
timestamp together with the message, so the fallback arm for a truthy message
without a timestamp is unreachable from `PopupState.init`. -/
def PopupState.render (s : PopupState) (now : ℚ) : Option String × PopupState :=
  if pyFalsy s.message then (none, s)
  else
    match s.message, s.start_time with
    | some m, some t0 =>
        if now - t0 > 1 then (none, { s with message := none })
        else (some m, s)
    | _, _ => (none, s)

/-- max(0.0, min(1.0, t)), the clamp both easing functions apply first. -/
def clamp01 (t : ℚ) : ℚ := max 0 (min 1 t)

/-- _ease_out_cubic (lines 210-213). -/
def ease_out_cubic (t : ℚ) : ℚ :=
  let u := clamp01 t
  1 - (1 - u) ^ 3

/-- _ease_out_bounce (lines 215-229): Penner bounce, four quadratic segments. -/
def ease_out_bounce (t : ℚ) : ℚ :=
  let u := clamp01 t
  let n1 : ℚ := 7.5625
  let d1 : ℚ := 2.75
  if u < 1 / d1 then n1 * u * u
  else if u < 2 / d1 then
    let v := u - 1.5 / d1
    n1 * v * v + 0.75
  else if u < 2.5 / d1 then
    let v := u - 2.25 / d1
    n1 * v * v + 0.9375
  else
    let v := u - 2.625 / d1
    n1 * v * v + 0.984375

/-- The three curses text attributes the animation engine uses. -/
inductive Attr
  | bold
  | normal
  | dim
deriving Repr, DecidableEq

/-- _attr_for_fade (lines 275-277): bold early, normal mid, dim late. -/
def attr_for_fade (t : ℚ) : Attr :=
  if t < 0.33 then .bold else if t < 0.66 then .normal else .dim

/-- _compute_center (lines 231-238): centered top-left corner (y, x) of a text
block of height text_h and width text_w on an h-by-w screen. -/
def compute_center (h w : ℕ) (lines : List String) : ℤ × ℤ × ℕ × ℕ :=
  let text_h := lines.length
  let text_w := (lines.map String.length).foldr max 0
  let y : ℤ := max 0 (((h : ℤ) - text_h) / 2)
  let x : ℤ := max 0 (((w : ℤ) - text_w) / 2)
  (y, x, text_h, text_w)

/-- One rendered animation frame: vertical and horizontal position of the text
block, the visibility threshold fed to the dissolve mask, and the emphasis
attribute. -/
structure Frame where
  y : ℤ
  x : ℤ
  vis : ℚ
  attr : Attr
deriving Repr, DecidableEq

/-- The loop indices actually executed by a frame loop over `n` remaining
indices starting at `i` that reads the unlock signal before rendering each
frame and returns as soon as it observes it set: `sig i` is the value the
check preceding frame `i` observes. -/
def abortableFrames (sig : ℕ → Bool) : ℕ → ℕ → List ℕ
  | _, 0 => []
  | i, n + 1 => if sig i then [] else i :: abortableFrames sig (i + 1) n

/-- frames = max(1, int(duration * fps)) computed by both animations. -/
def animFrameCount (duration fps : ℚ) : ℕ := max 1 (pyInt (duration * fps)).toNat

/-- The frame anim_slide renders at loop index i in mode "slide-up-out"
(lines 292-304): dx = 0, dy = -1, cubic-eased offset, fading visibility. -/
def slideFrame (y0 x0 : ℤ) (th frames : ℕ) (i : ℕ) : Frame :=
  let t : ℚ := (i : ℚ) / frames
  let e := ease_out_cubic t
  let dist : ℤ := y0 + th + 2
  let off : ℤ := pyInt ((dist : ℚ) * e)
  { y := y0 - off, x := x0, vis := 1 - t, attr := attr_for_fade t }

/-- anim_slide (lines 279-304): the frames actually rendered.  Returns at once
when animations are disabled or for any mode other than "slide-up-out", and
checks the unlock signal before each frame. -/
def anim_slide (animEnabled : Bool) (h w : ℕ) (textLines : List String)
    (sig : ℕ → Bool) (duration fps : ℚ) (mode : String) : List Frame :=
  if animEnabled = false then []
  else
    let c := compute_center h w textLines
    let frames := animFrameCount duration fps
    if mode = "slide-up-out" then
      (abortableFrames sig 0 (frames + 1)).map (slideFrame c.1 c.2.1 c.2.2.1 frames)
    else []

/-- The frame anim_bounce_in renders at loop index i (lines 315-325):
bounce-eased vertical position from above the screen, visibility ramping up
from 0.25, inverted fade schedule. -/
def bounceFrame (y0 x0 : ℤ) (th frames : ℕ) (i : ℕ) : Frame :=
  let t : ℚ := (i : ℚ) / frames
  let e := ease_out_bounce t
  let start_y : ℤ := -(th : ℤ) - 2
  let span : ℚ := ((y0 - start_y : ℤ) : ℚ)
  { y := pyInt ((start_y : ℚ) + span * e), x := x0
    vis := min 1 (0.25 + t), attr := attr_for_fade (1 - t) }

/-- anim_bounce_in (lines 306-325): the frames actually rendered, with the
unlock signal checked before each frame. -/
def anim_bounce_in (animEnabled : Bool) (h w : ℕ) (textLines : List String)
    (sig : ℕ → Bool) (duration fps : ℚ) : List Frame :=
  if animEnabled = false then []
  else
    let c := compute_center h w textLines
    let frames := animFrameCount duration fps
    (abortableFrames sig 0 (frames + 1)).map (bounceFrame c.1 c.2.1 c.2.2.1 frames)

/-- shake_panel (lines 337-350): the horizontal offsets with which the panel
draw routine is re-invoked, in order.  Degrades to a single zero-offset draw
when animations are disabled; aborts as soon as the unlock signal is set. -/
def shake_offsets (animEnabled : Bool) (cycles : ℕ) (amplitude : ℤ)
    (sig : ℕ → Bool) : List ℤ :=
  if animEnabled = false then [0]
  else
    let pattern : List ℤ :=
      [0, amplitude, -amplitude, amplitude / 2, (-amplitude) / 2, 0]
    (abortableFrames sig 0 cycles).map fun i => pattern.getD (i % pattern.length) 0

/-- TTYSafeLock mutable state (lines 352-362).  `unlocked_event` embeds the
threading.Event that is the Shared Unlock Signal; `desktop_choices` is the
ordered list of discovered session keys. -/
structure LockState where
  unlocked_event : Bool
  desktop_choices : List String
  desktop_index : ℤ
  password_mode : Bool
  password_buffer : String
  message : String
  popup : PopupState
deriving Repr, DecidableEq

/-- The starting session index chosen by TTYSafeLock.__init__ (lines 356-358):
the position of the configured default session key when it is among the
discovered choices, and the initial value 0 otherwise. -/
def initIndex (choices : List String) (default_session : String) : ℤ :=
  if default_session ∈ choices then (choices.indexOf default_session : ℤ) else 0

/-- TTYSafeLock.__init__ (lines 353-362). -/
def initState (choices : List String) (default_session : String) : LockState :=
  { unlocked_event := false
    desktop_choices := choices
    desktop_index := initIndex choices default_session
    password_mode := false
    password_buffer := ""
    message := ""
    popup := PopupState.init }

/-- TTYSafeLock._on_auth_success (line 375): sets the unlock event and ignores
both the method and the identity arguments. -/
def on_auth_success (s : LockState) (method identity : String) : LockState :=
  { s with unlocked_event := true }

/-- TTYSafeLock.handle_main_input (lines 431-436).  Space opens the password
panel (the exit animation it plays reads but never writes controller state);
left/right rotate the session index modulo the number of choices when there
are any, else assign 0. -/
def handle_main_input (s : LockState) (ch : ℕ) : LockState :=
  if ch = 32 then
    { s with password_mode := true, password_buffer := "", message := "" }
  else if ch = KEY_LEFT then
    { s with desktop_index :=
        if s.desktop_choices = [] then 0
        else (s.desktop_index - 1) % (s.desktop_choices.length : ℤ) }
  else if ch = KEY_RIGHT then
    { s with desktop_index :=
        if s.desktop_choices = [] then 0
        else (s.desktop_index + 1) % (s.desktop_choices.length : ℤ) }
  else s

/-- The declared parameter names of shake_panel (line 337). -/
def shake_panel_param_names : List String :=
  ["stdscr", "draw_fn", "cycles", "amplitude", "fps", "unlocked_event"]

/-- The keyword-argument names the call site in handle_password_input uses
(line 447): a=SHAKE_AMPLITUDE, e=self.unlocked_event. -/
def shake_call_keyword_names : List String := ["a", "e"]

/-- Python keyword binding: a call is accepted only when every keyword names a
declared parameter; otherwise it raises TypeError before the body runs. -/
def kwargsAccepted (params kwargs : List String) : Bool :=
  kwargs.all fun k => params.contains k

/-- TTYSafeLock.handle_password_input (lines 438-450).  `verify` is the
external password verifier, `username` the current user.  On enter with a
rejected buffer the code sets the message and then calls shake_panel with the
keyword arguments `a` and `e`; neither names a parameter of shake_panel, so
Python raises TypeError there and the buffer-clearing statement after the
call never runs. -/
def handle_password_input (verify : String → Bool) (username : String)
    (s : LockState) (ch : ℕ) : Except String LockState :=
  if ch = 27 then
    .ok { s with password_mode := false, password_buffer := "", message := "" }
  else if ch = 10 ∨ ch = 13 then
    if verify s.password_buffer then .ok (on_auth_success s "password" username)
    else
      let s1 := { s with message := "Incorrect password" }
      if kwargsAccepted shake_panel_param_names shake_call_keyword_names then
        .ok { s1 with password_buffer := "" }
      else .error "TypeError: shake_panel got an unexpected keyword argument a"
  else if ch = KEY_BACKSPACE ∨ ch = 127 ∨ ch = 8 then
    .ok { s with password_buffer := s.password_buffer.dropRight 1 }
  else if 32 ≤ ch ∧ ch < 256 then
    .ok { s with password_buffer := s.password_buffer.push (Char.ofNat ch) }
  else .ok s

/-- TTYSafeLock.handle_input (lines 427-429): dispatch on the UI mode. -/
def handle_input (verify : String → Bool) (username : String)
    (s : LockState) (ch : ℕ) : Except String LockState :=
  if s.password_mode then handle_password_input verify username s ch
  else .ok (handle_main_input s ch)

/-- The operations the core performs on the shared controller state: a
dispatched key press, a worker success callback, a worker popup post, and the
popup expiry check the render loop performs each frame. -/
inductive LockOp
  | key (ch : ℕ)
  | authSuccess (method identity : String)
  | popupShow (msg : String) (now : ℚ)
  | renderTick (now : ℚ)

/-- One core operation on the controller state; a Python exception is an
`Except.error`. -/
def step (verify : String → Bool) (username : String) (s : LockState) :
    LockOp → Except String LockState
  | .key ch => handle_input verify username s ch
  | .authSuccess m i => .ok (on_auth_success s m i)
  | .popupShow msg now => .ok { s with popup := s.popup.showMsg msg now }
  | .renderTick now => .ok { s with popup := (s.popup.render now).2 }

/-- A finite schedule of core operations run in order; the first exception
aborts the run. -/
def runOps (verify : String → Bool) (username : String) :
    LockState → List LockOp → Except String LockState
  | s, [] => .ok s
  | s, op :: rest =>
    match step verify username s op with
    | .ok s1 => runOps verify username s1 rest
    | .error e => .error e

/-- How the process ends: the exit code passed to sys.exit, the shell command
handed to Popen (if any), and the message printed to stderr (if any). -/
structure ExitOutcome where
  exitCode : ℕ
  launchedCmd : Option String
  stderrMsg : Option String
deriving Repr, DecidableEq

/-- launch_and_exit (lines 194-200): look up the launch command for the chosen
session key; a missing command reports an error and exits 1, otherwise the
command is spawned fire-and-forget and the process exits 0. -/
def launch_and_exit (unlock_commands : List (String × String))
    (choice_key : String) : ExitOutcome :=
  match unlock_commands.lookup choice_key with
  | none =>
    { exitCode := 1, launchedCmd := none
      stderrMsg := some ("Error: Command for " ++ choice_key ++ " not found.") }
  | some cmd => { exitCode := 0, launchedCmd := some cmd, stderrMsg := none }

/-- The tail of TTYSafeLock.run (lines 398-401): what happens once the render
loop exits.  With the unlock event set, the selected session is launched when
any choice exists; with no choices the code prints to stderr and calls
sys.exit(0).  With the event unset (loop left via KeyboardInterrupt) run just
returns and nothing is launched. -/
def run_exit (unlock_commands : List (String × String)) (s : LockState) :
    Option ExitOutcome :=
  if s.unlocked_event then
    if s.desktop_choices = [] then
      some { exitCode := 0, launchedCmd := none
             stderrMsg := some "Auth OK, but no sessions found." }
    else
      some (launch_and_exit unlock_commands
        (s.desktop_choices.getD s.desktop_index.toNat ""))
  else none

/-- The startup guard of main (lines 452-454): zero discovered sessions exit 1
with an operator-visible message before the controller is even constructed. -/
def main_startup (unlock_commands : List (String × String)) : Option ExitOutcome :=
  if unlock_commands = [] then
    some { exitCode := 1, launchedCmd := none
           stderrMsg := some "Error: No launchable desktop sessions found." }
  else none

/-- FaceWorker per-run state: the one-shot notification flag `_shown`, the
messages posted to the popup so far, and whether on_success (the write to the
Shared Unlock Signal) has been invoked. -/
structure FaceWorkerState where
  shown : Bool
  posts : List String
  signalWritten : Bool
deriving Repr, DecidableEq

/-- FaceWorker.__init__: nothing shown, nothing posted, signal untouched. -/
def FaceWorkerState.init : FaceWorkerState :=
  { shown := false, posts := [], signalWritten := false }

/-- One iteration of FaceWorker.run's polling loop (lines 164-173): `ret` is
whether the camera read succeeded and `matched` whether the captured frame
matched a reference encoding (only consulted when the database is
non-empty). -/
def faceIter (encodings : List ℕ) (ret matched : Bool) (s : FaceWorkerState) :
    FaceWorkerState :=
  if ret = false then s
  else if encodings = [] then
    if s.shown = false then
      { s with posts := s.posts ++ ["No known faces configured"], shown := true }
    else s
  else if matched then { s with signalWritten := true } else s

/-- FaceWorker.run's loop over a finite schedule of iteration outcomes (the
stop event bounds the schedule); the loop returns right after a successful
match writes the signal. -/
def faceRun (encodings : List ℕ) :
    List (Bool × Bool) → FaceWorkerState → FaceWorkerState
  | [], s => s
  | (ret, m) :: rest, s =>
    if (faceIter encodings ret m s).signalWritten then faceIter encodings ret m s
    else faceRun encodings rest (faceIter encodings ret m s)

/-- Modelled from the spec: the Shared Unlock Signal as section 3 specifies
it, a tri-state cell Locked / Unlocked(method, identity).  Used only to state
the claim that the code records the winning method and identity. -/
inductive SpecUnlockSignal
  | locked
  | unlocked (method identity : String)
deriving Repr, DecidableEq

/-! ## Theorems settling the claims -/

/-- Claim C9: the popup notifier holds at most one live message — showMsg
unconditionally replaces any current message and timestamps it, and render
draws nothing whenever the elapsed time since the timestamp exceeds the fixed
1.0 time-unit display window, every subsequent render also drawing nothing
without any explicit clear call. -/
theorem popup_show_replace_and_expiry (s : PopupState) (text : String) (now : ℚ)
    (m : String) (t0 now2 : ℚ) (hexp : now2 - t0 > 1) :
    s.showMsg text now = { message := some text, start_time := some now } ∧
    (PopupState.render { message := some m, start_time := some t0 } now2).1 = none ∧
    ∀ now3 : ℚ, (PopupState.render
      (PopupState.render { message := some m, start_time := some t0 } now2).2 now3).1
        = none := by
  refine ⟨rfl, ?_, ?_⟩
  · by_cases hm : m = "" <;> simp [PopupState.render, pyFalsy, hm, hexp]
  · intro now3
    by_cases hm : m = "" <;> simp [PopupState.render, pyFalsy, hm, hexp]

/-- Witness for C9 at a concrete message shown at time 0 and rendered at
time 2, past the 1.0-unit window. -/
theorem popup_show_replace_and_expiry_witness :
    PopupState.init.showMsg "hi" 0
        = { message := some "hi", start_time := some 0 } ∧
    (PopupState.render { message := some "hi", start_time := some 0 } 2).1 = none ∧
    ∀ now3 : ℚ, (PopupState.render
      (PopupState.render { message := some "hi", start_time := some 0 } 2).2 now3).1
        = none :=
  popup_show_replace_and_expiry PopupState.init "hi" 0 "hi" 0 2 (by norm_num)

/-- Claim C10: at controller construction, a configured default session key
that is among the discovered choices makes the index start at that key's
position (the list element at the starting index is that key); any other
configured value starts it at 0; and with at least one session the starting
index is a valid position. -/
theorem initial_session_index (choices : List String) (default_session : String)
    (hne : choices ≠ []) :
    (default_session ∈ choices →
        initIndex choices default_session
            = (choices.indexOf default_session : ℤ) ∧
        choices.getD (choices.indexOf default_session) "" = default_session) ∧
    (default_session ∉ choices → initIndex choices default_session = 0) ∧
    0 ≤ initIndex choices default_session ∧
    initIndex choices default_session < (choices.length : ℤ) := by
  refine ⟨fun hmem => ⟨if_pos hmem, ?_⟩, fun hmem => if_neg hmem, ?_, ?_⟩
  · rw [List.getD_eq_get _ _ (List.indexOf_lt_length.mpr hmem)]
    exact List.indexOf_get _
  · unfold initIndex
    split_ifs <;> positivity
  · unfold initIndex
    split_ifs with hmem
    · exact_mod_cast List.indexOf_lt_length.mpr hmem
    · exact_mod_cast List.length_pos.mpr hne

/-- Witness for C10 on the choice list [gnome-x11, kde] with defaults kde and
auto. -/
theorem initial_session_index_witness :
    (("kde" : String) ∈ ["gnome-x11", "kde"] →
        initIndex ["gnome-x11", "kde"] "kde"
            = (List.indexOf "kde" ["gnome-x11", "kde"] : ℤ) ∧
        List.getD ["gnome-x11", "kde"] (List.indexOf "kde" ["gnome-x11", "kde"]) ""
            = "kde") ∧
    (("kde" : String) ∉ ["gnome-x11", "kde"] →
        initIndex ["gnome-x11", "kde"] "kde" = 0) ∧
    0 ≤ initIndex ["gnome-x11", "kde"] "kde" ∧
    initIndex ["gnome-x11", "kde"] "kde" < (List.length ["gnome-x11", "kde"] : ℤ) :=
  initial_session_index ["gnome-x11", "kde"] "kde" (by decide)

/-- Claim C2 (code defect): in PasswordEntry, pressing enter with a buffer the
external verifier rejects does set the message, but the following shake_panel
call uses the keyword arguments a and e, which name no parameter of
shake_panel, so the handler raises TypeError instead of shaking the panel,
clearing the buffer and remaining in PasswordEntry. -/
theorem incorrect_password_shake_typeerror (verify : String → Bool)
    (username : String) (s : LockState)
    (hreject : verify s.password_buffer = false) :
    handle_password_input verify username s 10
      = .error "TypeError: shake_panel got an unexpected keyword argument a" := by
  simp [handle_password_input, hreject, kwargsAccepted,
    shake_panel_param_names, shake_call_keyword_names]

/-- Witness for C2: a verifier that rejects everything, applied to the freshly
opened password panel. -/
theorem incorrect_password_shake_typeerror_witness :
    handle_password_input (fun _ => false) "user"
        { initState ["kde"] "auto" with password_mode := true } 10
      = .error "TypeError: shake_panel got an unexpected keyword argument a" :=
  incorrect_password_shake_typeerror (fun _ => false) "user"
    { initState ["kde"] "auto" with password_mode := true } rfl

/-- Counterexample to claim C1: no abstraction of the controller state can
report the winning method and identity the claim says the Shared Unlock
Signal records, because a face success by alice and a fingerprint success by
bob leave the controller in identical states — on_auth_success discards both
arguments and sets a bare boolean event. -/
theorem unlock_signal_method_not_recorded :
    ¬ ∃ abs : LockState → SpecUnlockSignal,
        ∀ (s : LockState) (m i : String),
          abs (on_auth_success s m i) = SpecUnlockSignal.unlocked m i := by
  rintro ⟨abs, habs⟩
  have h1 := habs (initState ["kde"] "auto") "face" "alice"
  have h2 := habs (initState ["kde"] "auto") "fingerprint" "bob"
  have heq : on_auth_success (initState ["kde"] "auto") "face" "alice"
      = on_auth_success (initState ["kde"] "auto") "fingerprint" "bob" := rfl
  rw [heq, h2] at h1
  simp at h1

/-- Claim C1 as amended: any successful factor merely sets the boolean unlock
event, recording neither method nor identity, and on unlock the controller
hands only the chosen session key to the external launcher. -/
theorem unlock_event_bare_boolean (s : LockState) (m i : String)
    (cmds : List (String × String)) (hne : s.desktop_choices ≠ []) :
    on_auth_success s m i = { s with unlocked_event := true } ∧
    run_exit cmds (on_auth_success s m i)
      = some (launch_and_exit cmds
          (s.desktop_choices.getD s.desktop_index.toNat "")) := by
  refine ⟨rfl, ?_⟩
  simp [run_exit, on_auth_success, hne]

/-- Witness for C1's amended claim with one kde session. -/
theorem unlock_event_bare_boolean_witness :
    on_auth_success (initState ["kde"] "auto") "face" "alice"
      = { initState ["kde"] "auto" with unlocked_event := true } ∧
    run_exit [("kde", "startkde")]
        (on_auth_success (initState ["kde"] "auto") "face" "alice")
      = some (launch_and_exit [("kde", "startkde")]
          ((initState ["kde"] "auto").desktop_choices.getD
            (initState ["kde"] "auto").desktop_index.toNat "")) :=
  unlock_event_bare_boolean (initState ["kde"] "auto") "face" "alice"
    [("kde", "startkde")] (by decide)

/-- Counterexample to claim C4: with the unlock event set and no launchable
session, run prints the operator-visible message but calls sys.exit(0) — the
exit status is zero, not non-zero as claimed (the launcher is indeed not
invoked). -/
theorem unlocking_no_sessions_exit_zero :
    run_exit [] { initState [] "auto" with unlocked_event := true }
      = some { exitCode := 0, launchedCmd := none
               stderrMsg := some "Auth OK, but no sessions found." } ∧
    ¬ ∃ o : ExitOutcome,
        run_exit [] { initState [] "auto" with unlocked_event := true } = some o
          ∧ o.exitCode ≠ 0 := by
  refine ⟨rfl, ?_⟩
  rintro ⟨o, ho, hnz⟩
  have : o = { exitCode := 0, launchedCmd := none
               stderrMsg := some "Auth OK, but no sessions found." } := by
    have h0 : run_exit [] { initState [] "auto" with unlocked_event := true }
        = some { exitCode := 0, launchedCmd := none
                 stderrMsg := some "Auth OK, but no sessions found." } := rfl
    rw [h0] at ho
    exact (Option.some_injective _ ho).symm
  exact hnz (by rw [this])

/-- Claim C4 as amended: in the terminal Unlocking state with no launchable
session, the process reports the operator-visible error on stderr and
terminates with exit status zero, without invoking the session launcher; the
non-zero exit for zero sessions happens only in the startup guard of main,
before the controller runs. -/
theorem unlocking_no_sessions_behavior (cmds : List (String × String))
    (s : LockState) (hu : s.unlocked_event = true)
    (he : s.desktop_choices = []) :
    run_exit cmds s = some { exitCode := 0, launchedCmd := none
                             stderrMsg := some "Auth OK, but no sessions found." } ∧
    main_startup []
      = some { exitCode := 1, launchedCmd := none,
               stderrMsg := some "Error: No launchable desktop sessions found." } := by
  refine ⟨?_, rfl⟩
  simp [run_exit, hu, he]

/-- Witness for C4's amended claim at the concrete unlocked state with no
sessions. -/
theorem unlocking_no_sessions_behavior_witness :
    run_exit [] { initState [] "auto" with unlocked_event := true }
      = some { exitCode := 0, launchedCmd := none
               stderrMsg := some "Auth OK, but no sessions found." } ∧
    main_startup []
      = some { exitCode := 1, launchedCmd := none,
               stderrMsg := some "Error: No launchable desktop sessions found." } :=
  unlocking_no_sessions_behavior [] { initState [] "auto" with unlocked_event := true }
    rfl rfl

/-- With an empty reference database no iteration ever touches the signal. -/
lemma faceIter_empty_signal (ret m : Bool) (s : FaceWorkerState) :
    (faceIter [] ret m s).signalWritten = s.signalWritten := by
  unfold faceIter
  split_ifs <;> simp_all

/-- Characterization of a face-worker run over an empty database: the popup is
posted once as soon as some iteration reads a frame, and nothing else
changes. -/
lemma faceRun_empty_char :
    ∀ (iters : List (Bool × Bool)) (s : FaceWorkerState),
      s.signalWritten = false →
      faceRun [] iters s =
        if s.shown = false ∧ iters.any (fun p => p.1) = true then
          { s with posts := s.posts ++ ["No known faces configured"], shown := true }
        else s
  | [], s, _ => by simp [faceRun]
  | (ret, m) :: rest, s, hs => by
    unfold faceRun
    have h1 : (faceIter [] ret m s).signalWritten = false := by
      rw [faceIter_empty_signal]; exact hs
    rw [h1]
    cases hret : ret with
    | false =>
      have hit : faceIter [] false m s = s := by unfold faceIter; simp
      rw [if_neg (by simp), hit, faceRun_empty_char rest s hs]
      simp
    | true =>
      cases hshown : s.shown with
      | false =>
        have hit : faceIter [] true m s
            = { s with posts := s.posts ++ ["No known faces configured"],
                       shown := true } := by
          unfold faceIter; simp [hshown]
        rw [if_neg (by simp), hit,
          faceRun_empty_char rest _ (by simpa using hs)]
        simp [hshown]
      | true =>
        have hit : faceIter [] true m s = s := by unfold faceIter; simp [hshown]
        rw [if_neg (by simp), hit, faceRun_empty_char rest s hs]
        simp [hshown]

/-- Claim C8: a face-worker run over an empty reference database posts the
"no known faces configured" popup exactly once as soon as any iteration reads
a frame — never twice however many iterations execute — and never writes the
Shared Unlock Signal; unconditionally, every run posts at most once and
leaves the signal untouched. -/
theorem face_worker_empty_db_single_popup (iters : List (Bool × Bool))
    (hread : iters.any (fun p => p.1) = true) :
    (faceRun [] iters FaceWorkerState.init).posts
        = ["No known faces configured"] ∧
    (faceRun [] iters FaceWorkerState.init).signalWritten = false ∧
    ∀ its : List (Bool × Bool),
      (faceRun [] its FaceWorkerState.init).posts.length ≤ 1 ∧
      (faceRun [] its FaceWorkerState.init).signalWritten = false := by
  have hmain := faceRun_empty_char iters FaceWorkerState.init rfl
  rw [hmain]
  refine ⟨by simp [FaceWorkerState.init, hread], by simp [FaceWorkerState.init, hread], ?_⟩
  intro its
  have h := faceRun_empty_char its FaceWorkerState.init rfl
  rw [h]
  by_cases hany : its.any (fun p => p.1) = true <;>
    simp [FaceWorkerState.init, hany]

/-- Witness for C8 on a three-iteration schedule whose second iteration reads
a frame. -/
theorem face_worker_empty_db_single_popup_witness :
    (faceRun [] [(false, false), (true, false), (true, true)]
        FaceWorkerState.init).posts = ["No known faces configured"] ∧
    (faceRun [] [(false, false), (true, false), (true, true)]
        FaceWorkerState.init).signalWritten = false ∧
    ∀ its : List (Bool × Bool),
      (faceRun [] its FaceWorkerState.init).posts.length ≤ 1 ∧
      (faceRun [] its FaceWorkerState.init).signalWritten = false :=
  face_worker_empty_db_single_popup [(false, false), (true, false), (true, true)]
    (by decide)

/-- On [0, 1] the clamp of the easing functions is the identity. -/
lemma clamp01_eq_self (t : ℚ) (h0 : 0 ≤ t) (h1 : t ≤ 1) : clamp01 t = t := by
  unfold clamp01
  rw [min_eq_right h1, max_eq_right h0]

/-- Claim C6: the bounce easing returns 0 at t = 0 and 1 at t = 1 and stays
within [0, 1.01] on all of [0, 1]; the cubic easing 1 - (1 - t)^3 is
monotonically non-decreasing on [0, 1]. -/
theorem easing_properties (t s : ℚ) (h0 : 0 ≤ t) (hts : t ≤ s) (hs1 : s ≤ 1) :
    ease_out_bounce 0 = 0 ∧ ease_out_bounce 1 = 1 ∧
    0 ≤ ease_out_bounce t ∧ ease_out_bounce t ≤ 101 / 100 ∧
    ease_out_cubic t ≤ ease_out_cubic s := by
  have ht1 : t ≤ 1 := le_trans hts hs1
  have hs0 : 0 ≤ s := le_trans h0 hts
  refine ⟨?_, ?_, ?_, ?_, ?_⟩
  · norm_num [ease_out_bounce, clamp01]
  · norm_num [ease_out_bounce, clamp01]
  · simp only [ease_out_bounce]
    rw [clamp01_eq_self t h0 ht1]
    split_ifs <;> nlinarith [mul_self_nonneg t, mul_self_nonneg (t - 1.5 / 2.75),
      mul_self_nonneg (t - 2.25 / 2.75), mul_self_nonneg (t - 2.625 / 2.75)]
  · simp only [ease_out_bounce]
    rw [clamp01_eq_self t h0 ht1]
    split_ifs with hc1 hc2 hc3
    · nlinarith [mul_nonneg (by linarith : (0 : ℚ) ≤ 1 / 2.75 - t) h0]
    · nlinarith [mul_nonneg (by linarith : (0 : ℚ) ≤ 0.5 / 2.75 - (t - 1.5 / 2.75))
        (by linarith : (0 : ℚ) ≤ (t - 1.5 / 2.75) + 0.5 / 2.75)]
    · nlinarith [mul_nonneg (by linarith : (0 : ℚ) ≤ 0.25 / 2.75 - (t - 2.25 / 2.75))
        (by linarith : (0 : ℚ) ≤ (t - 2.25 / 2.75) + 0.25 / 2.75)]
    · nlinarith [mul_nonneg (by linarith : (0 : ℚ) ≤ 0.125 / 2.75 - (t - 2.625 / 2.75))
        (by linarith : (0 : ℚ) ≤ (t - 2.625 / 2.75) + 0.125 / 2.75)]
  · simp only [ease_out_cubic]
    rw [clamp01_eq_self t h0 ht1, clamp01_eq_self s hs0 hs1]
    have hpow : (1 - s) ^ 3 ≤ (1 - t) ^ 3 :=
      pow_le_pow_left₀ (by linarith) (by linarith) 3
    linarith

/-- Witness for C6 at t = 1/4 and s = 1/2. -/
theorem easing_properties_witness :
    ease_out_bounce 0 = 0 ∧ ease_out_bounce 1 = 1 ∧
    0 ≤ ease_out_bounce (1 / 4) ∧ ease_out_bounce (1 / 4) ≤ 101 / 100 ∧
    ease_out_cubic (1 / 4) ≤ ease_out_cubic (1 / 2) :=
  easing_properties (1 / 4) (1 / 2) (by norm_num) (by norm_num) (by norm_num)

/-- anim_slide with animations enabled, unfolded to its frame list. -/
lemma anim_slide_true_eq (h w : ℕ) (textLines : List String) (sig : ℕ → Bool)
    (duration fps : ℚ) :
    anim_slide true h w textLines sig duration fps "slide-up-out"
      = (abortableFrames sig 0 (animFrameCount duration fps + 1)).map
          (slideFrame (compute_center h w textLines).1
            (compute_center h w textLines).2.1
            (compute_center h w textLines).2.2.1 (animFrameCount duration fps)) := by
  simp [anim_slide]

/-- anim_bounce_in with animations enabled, unfolded to its frame list. -/
lemma anim_bounce_in_true_eq (h w : ℕ) (textLines : List String) (sig : ℕ → Bool)
    (duration fps : ℚ) :
    anim_bounce_in true h w textLines sig duration fps
      = (abortableFrames sig 0 (animFrameCount duration fps + 1)).map
          (bounceFrame (compute_center h w textLines).1
            (compute_center h w textLines).2.1
            (compute_center h w textLines).2.2.1 (animFrameCount duration fps)) := by
  simp [anim_bounce_in]

/-- A frame loop entered with the signal set renders nothing. -/
lemma abortableFrames_set (sig : ℕ → Bool) (i : ℕ) (hi : sig i = true) :
    ∀ n, abortableFrames sig i n = []
  | 0 => rfl
  | n + 1 => by simp [abortableFrames, hi]

/-- Under a monotone signal set at check j, a frame loop starting at i + j
renders at most j frames before aborting. -/
lemma abortableFrames_len (sig : ℕ → Bool)
    (hmono : ∀ a b, a ≤ b → sig a = true → sig b = true) :
    ∀ (n i j : ℕ), sig (i + j) = true → (abortableFrames sig i n).length ≤ j
  | 0, _, _, _ => by simp [abortableFrames]
  | n + 1, i, j, hj => by
    by_cases hi : sig i = true
    · simp [abortableFrames, hi]
    · cases j with
      | zero => exact absurd (by simpa using hj) hi
      | succ j =>
        have hrec : (abortableFrames sig (i + 1) n).length ≤ j :=
          abortableFrames_len sig hmono n (i + 1) j
            (by rw [Nat.add_comm i 1, Nat.add_assoc]; simpa [Nat.add_comm] using hj)
        simp only [abortableFrames, hi, if_false, Bool.false_eq_true,
          List.length_cons]
        omega

/-- Claim C7: every animation reads the Shared Unlock Signal before rendering
each frame — under a monotone signal set at check j, at most j frames are
rendered and the remaining frames are skipped — and an animation invoked with
the signal already set returns before rendering any frame. -/
theorem animation_abort_on_unlock (animEnabled : Bool) (h w : ℕ)
    (textLines : List String) (sig : ℕ → Bool) (duration fps : ℚ) (j : ℕ)
    (hmono : ∀ a b, a ≤ b → sig a = true → sig b = true) (hj : sig j = true) :
    (anim_slide animEnabled h w textLines sig duration fps "slide-up-out").length
        ≤ j ∧
    (anim_bounce_in animEnabled h w textLines sig duration fps).length ≤ j ∧
    (sig 0 = true →
      anim_slide animEnabled h w textLines sig duration fps "slide-up-out" = [] ∧
      anim_bounce_in animEnabled h w textLines sig duration fps = []) := by
  have hlen : ∀ n, (abortableFrames sig 0 n).length ≤ j := fun n =>
    abortableFrames_len sig hmono n 0 j (by simpa using hj)
  cases animEnabled with
  | false => simp [anim_slide, anim_bounce_in]
  | true =>
    refine ⟨?_, ?_, fun h0 => ⟨?_, ?_⟩⟩ <;>
      simp only [anim_slide_true_eq, anim_bounce_in_true_eq, List.length_map]
    · exact hlen _
    · exact hlen _
    · rw [abortableFrames_set sig 0 h0]
      rfl
    · rw [abortableFrames_set sig 0 h0]
      rfl

/-- Witness for C7: with the signal pre-set, both animations render zero
frames. -/
theorem animation_abort_on_unlock_witness :
    (anim_slide true 24 80 ["x"] (fun _ => true) (11/20) 50 "slide-up-out").length
        ≤ 0 ∧
    (anim_bounce_in true 24 80 ["x"] (fun _ => true) (11/20) 50).length ≤ 0 ∧
    ((fun _ : ℕ => true) 0 = true →
      anim_slide true 24 80 ["x"] (fun _ => true) (11/20) 50 "slide-up-out" = [] ∧
      anim_bounce_in true 24 80 ["x"] (fun _ => true) (11/20) 50 = []) :=
  animation_abort_on_unlock true 24 80 ["x"] (fun _ => true) (11/20) 50 0
    (fun _ _ _ hv => hv) rfl

/-- handle_main_input never touches the unlock event. -/
lemma handle_main_input_unlocked (s : LockState) (ch : ℕ) :
    (handle_main_input s ch).unlocked_event = s.unlocked_event := by
  unfold handle_main_input
  split_ifs <;> rfl

/-- A password-mode key press that does not raise keeps the unlock event set. -/
lemma handle_password_input_mono (verify : String → Bool) (username : String)
    (s : LockState) (ch : ℕ) (s1 : LockState)
    (h : handle_password_input verify username s ch = .ok s1)
    (hu : s.unlocked_event = true) : s1.unlocked_event = true := by
  unfold handle_password_input at h
  split_ifs at h <;>
    (injection h with h
     subst h
     first
       | rfl
       | exact hu)

/-- No non-raising core operation ever clears a set unlock event. -/
lemma step_unlocked_mono (verify : String → Bool) (username : String)
    (s : LockState) (op : LockOp) (s1 : LockState)
    (h : step verify username s op = .ok s1)
    (hu : s.unlocked_event = true) : s1.unlocked_event = true := by
  cases op with
  | key ch =>
    unfold step handle_input at h
    split_ifs at h with hpm
    · exact handle_password_input_mono verify username s ch s1 h hu
    · injection h with h
      subst h
      rw [handle_main_input_unlocked]
      exact hu
  | authSuccess m i =>
    injection h with h
    subst h
    rfl
  | popupShow msg now =>
    injection h with h
    subst h
    exact hu
  | renderTick now =>
    injection h with h
    subst h
    exact hu

/-- Unlock-event monotonicity over any finite schedule of core operations. -/
lemma runOps_unlocked_mono (verify : String → Bool) (username : String) :
    ∀ (ops : List LockOp) (s s1 : LockState),
      runOps verify username s ops = .ok s1 → s.unlocked_event = true →
      s1.unlocked_event = true
  | [], s, s1, h, hu => by
    unfold runOps at h
    injection h with h
    subst h
    exact hu
  | op :: rest, s, s1, h, hu => by
    unfold runOps at h
    cases hstep : step verify username s op with
    | ok s2 =>
      rw [hstep] at h
      exact runOps_unlocked_mono verify username rest s2 s1 h
        (step_unlocked_mono verify username s op s2 hstep hu)
    | error e =>
      rw [hstep] at h
      cases h

/-- Claim C3: the Shared Unlock Signal starts Locked at controller
construction, and once set it is never cleared, overwritten back, or reverted
by any later core operation: every non-raising run of operations from a state
with the event set ends with the event still set, so every later read
observes it set. -/
theorem unlock_signal_terminal (choices : List String) (ds : String)
    (verify : String → Bool) (username : String) (s s1 : LockState)
    (ops : List LockOp) (hrun : runOps verify username s ops = .ok s1)
    (hset : s.unlocked_event = true) :
    (initState choices ds).unlocked_event = false ∧ s1.unlocked_event = true :=
  ⟨rfl, runOps_unlocked_mono verify username ops s s1 hrun hset⟩

/-- Witness for C3: a freshly unlocked state survives a left-arrow press and a
render tick with the event still set. -/
theorem unlock_signal_terminal_witness :
    (initState ["kde"] "auto").unlocked_event = false ∧
    LockState.unlocked_event { initState ["kde"] "auto" with unlocked_event := true }
      = true :=
  unlock_signal_terminal ["kde"] "auto" (fun _ => false) "user"
    { initState ["kde"] "auto" with unlocked_event := true }
    { initState ["kde"] "auto" with unlocked_event := true }
    [LockOp.key 260, LockOp.renderTick 1] rfl rfl

/-- handle_main_input never changes the session list. -/
lemma handle_main_input_choices (s : LockState) (ch : ℕ) :
    (handle_main_input s ch).desktop_choices = s.desktop_choices := by
  unfold handle_main_input
  split_ifs <;> rfl

/-- A non-raising password-mode key press changes neither the session list
nor the session index. -/
lemma handle_password_input_nav_fields (verify : String → Bool)
    (username : String) (s : LockState) (ch : ℕ) (s1 : LockState)
    (h : handle_password_input verify username s ch = .ok s1) :
    s1.desktop_choices = s.desktop_choices ∧
    s1.desktop_index = s.desktop_index := by
  unfold handle_password_input at h
  split_ifs at h <;>
    (injection h with h
     subst h
     exact ⟨rfl, rfl⟩)

/-- Every non-raising core operation preserves the invariant that the session
index is 0 whenever the session list is empty (the list itself never
changes). -/
lemma step_nav_inv (verify : String → Bool) (username : String)
    (s : LockState) (op : LockOp) (s1 : LockState)
    (h : step verify username s op = .ok s1)
    (hinv : s.desktop_choices = [] → s.desktop_index = 0) :
    s1.desktop_choices = [] → s1.desktop_index = 0 := by
  cases op with
  | key ch =>
    unfold step handle_input at h
    split_ifs at h with hpm
    · obtain ⟨hc, hi⟩ := handle_password_input_nav_fields verify username s ch s1 h
      intro h1
      rw [hc] at h1
      rw [hi]
      exact hinv h1
    · injection h with h
      subst h
      intro h1
      rw [handle_main_input_choices] at h1
      unfold handle_main_input
      split_ifs <;> simp [h1, hinv h1]
  | authSuccess m i =>
    injection h with h
    subst h
    exact hinv
  | popupShow msg now =>
    injection h with h
    subst h
    exact hinv
  | renderTick now =>
    injection h with h
    subst h
    exact hinv

/-- The empty-list/zero-index invariant holds along any non-raising run. -/
lemma runOps_nav_inv (verify : String → Bool) (username : String) :
    ∀ (ops : List LockOp) (s s1 : LockState),
      runOps verify username s ops = .ok s1 →
      (s.desktop_choices = [] → s.desktop_index = 0) →
      s1.desktop_choices = [] → s1.desktop_index = 0
  | [], s, s1, h, hinv => by
    unfold runOps at h
    injection h with h
    subst h
    exact hinv
  | op :: rest, s, s1, h, hinv => by
    unfold runOps at h
    cases hstep : step verify username s op with
    | ok s2 =>
      rw [hstep] at h
      exact runOps_nav_inv verify username rest s2 s1 h
        (step_nav_inv verify username s op s2 hstep hinv)
    | error e =>
      rw [hstep] at h
      cases h

/-- A left arrow press on a non-empty session list, unfolded. -/
lemma handle_main_left_eq (s : LockState) (hne : s.desktop_choices ≠ []) :
    handle_main_input s KEY_LEFT
      = { s with desktop_index :=
            (s.desktop_index - 1) % (s.desktop_choices.length : ℤ) } := by
  simp [handle_main_input, KEY_LEFT, hne]

/-- A right arrow press on a non-empty session list, unfolded. -/
lemma handle_main_right_eq (s : LockState) (hne : s.desktop_choices ≠ []) :
    handle_main_input s KEY_RIGHT
      = { s with desktop_index :=
            (s.desktop_index + 1) % (s.desktop_choices.length : ℤ) } := by
  simp [handle_main_input, KEY_LEFT, KEY_RIGHT, hne]

/-- Subtracting one commutes with reduction modulo n. -/
lemma emod_sub_one_emod (x n : ℤ) : (x % n - 1) % n = (x - 1) % n := by
  conv_rhs => rw [Int.sub_emod]
  rw [Int.sub_emod (x % n) 1, Int.emod_emod_of_dvd _ dvd_rfl]

/-- Adding one commutes with reduction modulo n. -/
lemma emod_add_one_emod (x n : ℤ) : (x % n + 1) % n = (x + 1) % n := by
  conv_rhs => rw [Int.add_emod]
  rw [Int.add_emod (x % n) 1, Int.emod_emod_of_dvd _ dvd_rfl]

/-- Subtracting the modulus does not change the residue. -/
lemma sub_self_emod (x n : ℤ) : (x - n) % n = x % n := by
  rw [Int.sub_emod, Int.emod_self, sub_zero, Int.emod_emod_of_dvd _ dvd_rfl]

/-- Adding the modulus does not change the residue. -/
lemma add_self_emod (x n : ℤ) : (x + n) % n = x % n := by
  rw [Int.add_emod, Int.emod_self, add_zero, Int.emod_emod_of_dvd _ dvd_rfl]

/-- k left presses from a valid index land on (index - k) mod length. -/
lemma iterate_left_index (s : LockState) (hne : s.desktop_choices ≠ [])
    (h0 : 0 ≤ s.desktop_index)
    (hlt : s.desktop_index < (s.desktop_choices.length : ℤ)) :
    ∀ k : ℕ, (fun x => handle_main_input x KEY_LEFT)^[k] s
      = { s with desktop_index :=
            (s.desktop_index - k) % (s.desktop_choices.length : ℤ) }
  | 0 => by
    rw [Function.iterate_zero, id_eq]
    rw [show ((0 : ℕ) : ℤ) = 0 from rfl, sub_zero, Int.emod_eq_of_lt h0 hlt]
  | k + 1 => by
    rw [Function.iterate_succ_apply', iterate_left_index s hne h0 hlt k]
    have hne2 : ({ s with desktop_index :=
        (s.desktop_index - k) % (s.desktop_choices.length : ℤ) } :
          LockState).desktop_choices ≠ [] := hne
    rw [handle_main_left_eq _ hne2]
    obtain ⟨u, c, i, pm, pb, m, pp⟩ := s
    simp only [LockState.mk.injEq, and_true, true_and]
    rw [emod_sub_one_emod]
    push_cast
    ring_nf

/-- k right presses from a valid index land on (index + k) mod length. -/
lemma iterate_right_index (s : LockState) (hne : s.desktop_choices ≠ [])
    (h0 : 0 ≤ s.desktop_index)
    (hlt : s.desktop_index < (s.desktop_choices.length : ℤ)) :
    ∀ k : ℕ, (fun x => handle_main_input x KEY_RIGHT)^[k] s
      = { s with desktop_index :=
            (s.desktop_index + k) % (s.desktop_choices.length : ℤ) }
  | 0 => by
    rw [Function.iterate_zero, id_eq]
    rw [show ((0 : ℕ) : ℤ) = 0 from rfl, add_zero, Int.emod_eq_of_lt h0 hlt]
  | k + 1 => by
    rw [Function.iterate_succ_apply', iterate_right_index s hne h0 hlt k]
    have hne2 : ({ s with desktop_index :=
        (s.desktop_index + k) % (s.desktop_choices.length : ℤ) } :
          LockState).desktop_choices ≠ [] := hne
    rw [handle_main_right_eq _ hne2]
    obtain ⟨u, c, i, pm, pb, m, pp⟩ := s
    simp only [LockState.mk.injEq, and_true, true_and]
    rw [emod_add_one_emod]
    push_cast
    ring_nf

/-- Claim C5: a left or right press leaves a reachable state with an empty
session list unchanged; on a non-empty list with a valid index each press
moves the index by minus or plus one modulo the length, and length-many
consecutive left (or right) presses return the whole state — in particular
the index — to its starting value. -/
theorem session_nav_modulo (choices : List String) (ds : String)
    (verify : String → Bool) (username : String) (ops : List LockOp)
    (s1 : LockState)
    (hrun : runOps verify username (initState choices ds) ops = .ok s1)
    (hempty : s1.desktop_choices = [])
    (s : LockState) (hne : s.desktop_choices ≠ [])
    (h0 : 0 ≤ s.desktop_index)
    (hlt : s.desktop_index < (s.desktop_choices.length : ℤ)) :
    handle_main_input s1 KEY_LEFT = s1 ∧
    handle_main_input s1 KEY_RIGHT = s1 ∧
    (handle_main_input s KEY_LEFT).desktop_index
        = (s.desktop_index - 1) % (s.desktop_choices.length : ℤ) ∧
    (handle_main_input s KEY_RIGHT).desktop_index
        = (s.desktop_index + 1) % (s.desktop_choices.length : ℤ) ∧
    (fun x => handle_main_input x KEY_LEFT)^[s.desktop_choices.length] s = s ∧
    (fun x => handle_main_input x KEY_RIGHT)^[s.desktop_choices.length] s = s := by
  have hidx : s1.desktop_index = 0 := by
    refine runOps_nav_inv verify username ops (initState choices ds) s1 hrun
      ?_ hempty
    intro hc
    have hc2 : choices = [] := hc
    subst hc2
    simp [initState, initIndex]
  have hleft : handle_main_input s1 KEY_LEFT = s1 := by
    unfold handle_main_input KEY_LEFT
    obtain ⟨u, c, i, pm, pb, m, pp⟩ := s1
    simp_all
  have hright : handle_main_input s1 KEY_RIGHT = s1 := by
    unfold handle_main_input KEY_LEFT KEY_RIGHT
    obtain ⟨u, c, i, pm, pb, m, pp⟩ := s1
    simp_all
  refine ⟨hleft, hright, ?_, ?_, ?_, ?_⟩
  · rw [handle_main_left_eq s hne]
  · rw [handle_main_right_eq s hne]
  · rw [iterate_left_index s hne h0 hlt]
    rw [sub_self_emod, Int.emod_eq_of_lt h0 hlt]
  · rw [iterate_right_index s hne h0 hlt]
    rw [add_self_emod, Int.emod_eq_of_lt h0 hlt]

/-- Witness for C5: the empty list via the freshly constructed controller, the
modulo wrap on the two-session list [gnome-x11, kde]. -/
theorem session_nav_modulo_witness :
    handle_main_input (initState [] "auto") KEY_LEFT = initState [] "auto" ∧
    handle_main_input (initState [] "auto") KEY_RIGHT = initState [] "auto" ∧
    (handle_main_input (initState ["gnome-x11", "kde"] "auto") KEY_LEFT).desktop_index
        = ((initState ["gnome-x11", "kde"] "auto").desktop_index - 1)
            % ((initState ["gnome-x11", "kde"] "auto").desktop_choices.length : ℤ) ∧
    (handle_main_input (initState ["gnome-x11", "kde"] "auto") KEY_RIGHT).desktop_index
        = ((initState ["gnome-x11", "kde"] "auto").desktop_index + 1)
            % ((initState ["gnome-x11", "kde"] "auto").desktop_choices.length : ℤ) ∧
    (fun x => handle_main_input x KEY_LEFT)^[(initState ["gnome-x11", "kde"] "auto").desktop_choices.length]
        (initState ["gnome-x11", "kde"] "auto") = initState ["gnome-x11", "kde"] "auto" ∧
    (fun x => handle_main_input x KEY_RIGHT)^[(initState ["gnome-x11", "kde"] "auto").desktop_choices.length]
        (initState ["gnome-x11", "kde"] "auto") = initState ["gnome-x11", "kde"] "auto" :=
  session_nav_modulo [] "auto" (fun _ => false) "user" [] (initState [] "auto")
    rfl rfl (initState ["gnome-x11", "kde"] "auto") (by decide) (by decide) (by decide)

end FaceLock
